import Mathlib

/-!
Verification development for the two-party bargaining simulator
(`core.py`, `strategies/proposers.py`, `strategies/responders.py`).

Numbers (offers, utilities, probabilities) are embedded as rationals.
Randomness is made explicit: every round takes an `Oracle` holding the
draws the code obtains from `random.uniform` (the two rejection-penalty
jitters) and `random.random()` (the role-switch draw).  A game whose
penalty ranges are the default `(0, 0)` always has jitter draw `0`,
since `random.uniform(0, 0)` returns `0` exactly.

Strategy objects are embedded as explicit state values together with
pure transition functions, mirroring each Python class field for field.
-/

namespace TwoPartySim

/-- Immutable configuration of `Game.__init__` (`core.py`).  The constructor
hard-codes `p_reset_on_accept = True`; `Game.mkConfig` below mirrors that. -/
structure GameConfig where
  p_base : ℚ
  p_reject_bump : ℚ
  p_reset_on_accept : Bool
  player_1_bad : ℚ
  player_2_bad : ℚ
  proposer_bad : ℚ
  receiver_bad : ℚ
  min_offer : ℚ
  max_offer : ℚ
deriving DecidableEq

/-- One entry of `Game.history` (`core.py`, `play_round`).  The proposer
name is modelled by which player holds the proposer role. -/
structure RoundRecord where
  round : ℕ
  proposer_is_p1 : Bool
  offer : ℚ
  accepted : Bool
  player1_utility : ℚ
  player2_utility : ℚ
  next_round_switching_prob : ℚ
deriving DecidableEq

/-- `Game.get_bad_utility` (`core.py`): flat per-player rejection cost plus
the role-dependent rejection cost. -/
def get_bad_utility (cfg : GameConfig) (is_p1 : Bool) (is_proposer : Bool) : ℚ :=
  (if is_p1 then cfg.player_1_bad else cfg.player_2_bad) +
    (if is_proposer then cfg.proposer_bad else cfg.receiver_bad)

/-- The strategy pair one `Player` carries: a proposer strategy with state
type `σ` and a responder strategy with state type `ρ`.  `propose` may update
its own state (BinarySearch records its last offer inside `propose`);
`respond` may update its own state (StrategicRejector tracks a streak inside
`respond`).  The Boolean argument models the `self_player == game.player1`
identity test the Python strategies perform.  The engine loop of `core.py`
calls `receive_feedback` only on the proposer strategy of the current
proposer; responder strategies have no engine-reachable feedback hook. -/
structure PlayerStrategies (σ ρ : Type) where
  propose : σ → GameConfig → Bool → ℚ × σ
  receive_feedback : σ → Bool → ℚ → GameConfig → σ
  observe_offer_from_opponent : Option (ℚ → σ → σ)
  respond : ρ → ℚ → GameConfig → Bool → Bool × ρ

/-- The proposer-side half of a strategy pair, used to state facts that hold
for any proposer strategy while pinning the responder strategy. -/
structure ProposerPart (σ : Type) where
  propose : σ → GameConfig → Bool → ℚ × σ
  receive_feedback : σ → Bool → ℚ → GameConfig → σ
  observe_offer_from_opponent : Option (ℚ → σ → σ)

/-- Attach a responder rule to a proposer half. -/
def withResponder {σ ρ : Type} (P : ProposerPart σ)
    (respond : ρ → ℚ → GameConfig → Bool → Bool × ρ) : PlayerStrategies σ ρ :=
  ⟨P.propose, P.receive_feedback, P.observe_offer_from_opponent, respond⟩

/-- Mutable state of a `Game` (`core.py`): current switch probability,
both cumulative utilities, both players strategy states, the role
assignment, and the history log. -/
structure GameState (σ1 ρ1 σ2 ρ2 : Type) where
  cfg : GameConfig
  p_current : ℚ
  u1 : ℚ
  u2 : ℚ
  prop1 : σ1
  resp1 : ρ1
  prop2 : σ2
  resp2 : ρ2
  proposer_is_p1 : Bool
  history : List RoundRecord

/-- The random draws one round consumes: the two `random.uniform` penalty
jitters and the `random.random()` role-switch draw. -/
structure Oracle where
  proposer_jitter : ℚ
  receiver_jitter : ℚ
  switch_draw : ℚ

variable {σ1 ρ1 σ2 ρ2 : Type}

/-- Step 1 of `Game.play_round`: the current proposer produces an offer,
possibly updating its own strategy state. -/
def propose_phase (S1 : PlayerStrategies σ1 ρ1) (S2 : PlayerStrategies σ2 ρ2)
    (g : GameState σ1 ρ1 σ2 ρ2) : ℚ × GameState σ1 ρ1 σ2 ρ2 :=
  if g.proposer_is_p1 then
    ((S1.propose g.prop1 g.cfg true).1, { g with prop1 := (S1.propose g.prop1 g.cfg true).2 })
  else
    ((S2.propose g.prop2 g.cfg false).1, { g with prop2 := (S2.propose g.prop2 g.cfg false).2 })

/-- Step 2 of `Game.play_round`: if the receiver proposer strategy has the
`observe_offer_from_opponent` capability, it is notified of the offer. -/
def observe_phase (S1 : PlayerStrategies σ1 ρ1) (S2 : PlayerStrategies σ2 ρ2)
    (g : GameState σ1 ρ1 σ2 ρ2) (offer : ℚ) : GameState σ1 ρ1 σ2 ρ2 :=
  if g.proposer_is_p1 then
    match S2.observe_offer_from_opponent with
    | some f => { g with prop2 := f offer g.prop2 }
    | none => g
  else
    match S1.observe_offer_from_opponent with
    | some f => { g with prop1 := f offer g.prop1 }
    | none => g

/-- Step 3 of `Game.play_round`: the current receiver responds, possibly
updating its own responder-strategy state. -/
def respond_phase (S1 : PlayerStrategies σ1 ρ1) (S2 : PlayerStrategies σ2 ρ2)
    (g : GameState σ1 ρ1 σ2 ρ2) (offer : ℚ) : Bool × GameState σ1 ρ1 σ2 ρ2 :=
  if g.proposer_is_p1 then
    ((S2.respond g.resp2 offer g.cfg false).1,
      { g with resp2 := (S2.respond g.resp2 offer g.cfg false).2 })
  else
    ((S1.respond g.resp1 offer g.cfg true).1,
      { g with resp1 := (S1.respond g.resp1 offer g.cfg true).2 })

/-- Steps 4 to 6 of `Game.play_round`: update `p_current`, apply the
zero-sum transfer or the rejection penalties, and append the round record. -/
def settle (g : GameState σ1 ρ1 σ2 ρ2) (offer : ℚ) (accepted : Bool)
    (o : Oracle) : GameState σ1 ρ1 σ2 ρ2 :=
  let p_next : ℚ :=
    if accepted then (if g.cfg.p_reset_on_accept then g.cfg.p_base else g.p_current)
    else min 1 (g.p_current + g.cfg.p_reject_bump)
  let u1a : ℚ :=
    if accepted then (if g.proposer_is_p1 then g.u1 + offer else g.u1 + -offer)
    else
      if g.proposer_is_p1 then g.u1 + (get_bad_utility g.cfg true true + o.proposer_jitter)
      else g.u1 + (get_bad_utility g.cfg true false + o.receiver_jitter)
  let u2a : ℚ :=
    if accepted then (if g.proposer_is_p1 then g.u2 + -offer else g.u2 + offer)
    else
      if g.proposer_is_p1 then g.u2 + (get_bad_utility g.cfg false false + o.receiver_jitter)
      else g.u2 + (get_bad_utility g.cfg false true + o.proposer_jitter)
  { g with
    p_current := p_next
    u1 := u1a
    u2 := u2a
    history := g.history ++
      [{ round := g.history.length + 1
         proposer_is_p1 := g.proposer_is_p1
         offer := offer
         accepted := accepted
         player1_utility := u1a
         player2_utility := u2a
         next_round_switching_prob := p_next }] }

/-- Step 7 of `Game.play_round`: feedback to the current proposer strategy
only (responder strategies never receive engine feedback). -/
def feedback_phase (S1 : PlayerStrategies σ1 ρ1) (S2 : PlayerStrategies σ2 ρ2)
    (g : GameState σ1 ρ1 σ2 ρ2) (accepted : Bool) (offer : ℚ) :
    GameState σ1 ρ1 σ2 ρ2 :=
  if g.proposer_is_p1 then
    { g with prop1 := S1.receive_feedback g.prop1 accepted offer g.cfg }
  else
    { g with prop2 := S2.receive_feedback g.prop2 accepted offer g.cfg }

/-- `Game.maybe_switch_roles`: with draw below `p_current` the roles swap. -/
def maybe_switch (g : GameState σ1 ρ1 σ2 ρ2) (draw : ℚ) :
    GameState σ1 ρ1 σ2 ρ2 :=
  { g with proposer_is_p1 :=
      if draw < g.p_current then !g.proposer_is_p1 else g.proposer_is_p1 }

/-- The offer produced in the current round (step 1). -/
def round_offer (S1 : PlayerStrategies σ1 ρ1) (S2 : PlayerStrategies σ2 ρ2)
    (g : GameState σ1 ρ1 σ2 ρ2) : ℚ :=
  (propose_phase S1 S2 g).1

/-- Game state after the propose and observe phases. -/
def round_mid (S1 : PlayerStrategies σ1 ρ1) (S2 : PlayerStrategies σ2 ρ2)
    (g : GameState σ1 ρ1 σ2 ρ2) : GameState σ1 ρ1 σ2 ρ2 :=
  observe_phase S1 S2 (propose_phase S1 S2 g).2 (round_offer S1 S2 g)

/-- The responder decision of the current round (step 3). -/
def round_accepted (S1 : PlayerStrategies σ1 ρ1) (S2 : PlayerStrategies σ2 ρ2)
    (g : GameState σ1 ρ1 σ2 ρ2) : Bool :=
  (respond_phase S1 S2 (round_mid S1 S2 g) (round_offer S1 S2 g)).1

/-- `Game.play_round` (`core.py`): offer, optional observation, response,
settlement and history append, proposer feedback, then the role switch. -/
def play_round (S1 : PlayerStrategies σ1 ρ1) (S2 : PlayerStrategies σ2 ρ2)
    (g : GameState σ1 ρ1 σ2 ρ2) (o : Oracle) : GameState σ1 ρ1 σ2 ρ2 :=
  let offer := round_offer S1 S2 g
  let accepted := round_accepted S1 S2 g
  let g3 := (respond_phase S1 S2 (round_mid S1 S2 g) offer).2
  let g4 := settle g3 offer accepted o
  let g5 := feedback_phase S1 S2 g4 accepted offer
  maybe_switch g5 o.switch_draw

/-- `Game.run(n_rounds)`: play one round per oracle in the list. -/
def Game.run (S1 : PlayerStrategies σ1 ρ1) (S2 : PlayerStrategies σ2 ρ2)
    (g : GameState σ1 ρ1 σ2 ρ2) (os : List Oracle) : GameState σ1 ρ1 σ2 ρ2 :=
  os.foldl (play_round S1 S2) g

/-- `Game.__init__`: player 1 starts as proposer, both utilities are zero,
`p_current = p_base`, history is empty.  The constructor always sets
`p_reset_on_accept = True`, which `Game.mkConfig` encodes. -/
def Game.init (cfg : GameConfig) (p1 : σ1) (r1 : ρ1) (p2 : σ2) (r2 : ρ2) :
    GameState σ1 ρ1 σ2 ρ2 :=
  { cfg := cfg, p_current := cfg.p_base, u1 := 0, u2 := 0,
    prop1 := p1, resp1 := r1, prop2 := p2, resp2 := r2,
    proposer_is_p1 := true, history := [] }

/-- The configuration `Game.__init__` builds from its keyword arguments:
`p_reset_on_accept` is hard-coded to true. -/
def Game.mkConfig (p player_1_bad player_2_bad proposer_bad receiver_bad
    min_offer max_offer p_reject_bump : ℚ) : GameConfig :=
  { p_base := p, p_reject_bump := p_reject_bump, p_reset_on_accept := true,
    player_1_bad := player_1_bad, player_2_bad := player_2_bad,
    proposer_bad := proposer_bad, receiver_bad := receiver_bad,
    min_offer := min_offer, max_offer := max_offer }

/-- Rename the responder-strategy state of player 1, leaving every other
component unchanged.  Used to compare runs of the same game under two
different responder strategies for player 1. -/
def map_resp1 {ρ1a : Type} (f : ρ1 → ρ1a) (g : GameState σ1 ρ1 σ2 ρ2) :
    GameState σ1 ρ1a σ2 ρ2 :=
  { cfg := g.cfg, p_current := g.p_current, u1 := g.u1, u2 := g.u2,
    prop1 := g.prop1, resp1 := f g.resp1, prop2 := g.prop2, resp2 := g.resp2,
    proposer_is_p1 := g.proposer_is_p1, history := g.history }

/-! ## Concrete strategies (`strategies/proposers.py`, `strategies/responders.py`) -/

/-- Error taxonomy for invalid strategy parameters (the spec names it
ConfigurationError).  The code raises at the point of the invalid call:
an assertion failure for a normal distribution missing mean or stddev,
and a value error for an unrecognized distribution name. -/
inductive ConfigurationError where
  | missingMeanStddev : ConfigurationError
  | unknownDistribution : String → ConfigurationError
deriving DecidableEq

/-- State of `RandomProposer`: distribution name and optional parameters. -/
structure RandomProposerState where
  distribution : String
  mean : Option ℚ
  stddev : Option ℚ
deriving DecidableEq

/-- `RandomProposer.propose`.  The random sample (`random.uniform` for the
uniform case, `random.gauss` for the normal case) is passed in as `draw`;
the result is clamped to the game bounds.  Failures are returned as
`ConfigurationError` values at the point of the call. -/
def RandomProposer.propose (s : RandomProposerState) (cfg : GameConfig)
    (draw : ℚ) : Except ConfigurationError ℚ :=
  if s.distribution = "uniform" then
    Except.ok (max cfg.min_offer (min draw cfg.max_offer))
  else if s.distribution = "normal" then
    match s.mean, s.stddev with
    | some _, some _ => Except.ok (max cfg.min_offer (min draw cfg.max_offer))
    | _, _ => Except.error ConfigurationError.missingMeanStddev
  else
    Except.error (ConfigurationError.unknownDistribution s.distribution)

/-- State of `ConcedingProposer`. -/
structure ConcedingProposerState where
  current_offer : ℚ
  decrement : ℚ
deriving DecidableEq

/-- `ConcedingProposer.propose`: the current offer clamped to the game bounds. -/
def ConcedingProposer.propose (s : ConcedingProposerState) (cfg : GameConfig) : ℚ :=
  max cfg.min_offer (min s.current_offer cfg.max_offer)

/-- `ConcedingProposer.receive_feedback`: drop by the decrement on rejection. -/
def ConcedingProposer.receive_feedback (s : ConcedingProposerState)
    (accepted : Bool) : ConcedingProposerState :=
  if accepted then s else { s with current_offer := s.current_offer - s.decrement }

/-- Proposer half of a conceding player. -/
def concedingPart : ProposerPart ConcedingProposerState :=
  { propose := fun s cfg _ => (ConcedingProposer.propose s cfg, s)
    receive_feedback := fun s accepted _ _ => ConcedingProposer.receive_feedback s accepted
    observe_offer_from_opponent := none }

/-- State of `TitForTatProposer`: the last nonzero opponent offer seen. -/
structure TitForTatProposerState where
  last_opponent_offer : Option ℚ
deriving DecidableEq

/-- `TitForTatProposer.propose`: `0` if no opponent offer was observed,
otherwise the last observed opponent offer.  Note: no clamping. -/
def TitForTatProposer.propose (s : TitForTatProposerState) : ℚ :=
  match s.last_opponent_offer with
  | none => 0
  | some x => x

/-- `TitForTatProposer.observe_offer_from_opponent`: record the offer
unless it is zero. -/
def TitForTatProposer.observe_offer_from_opponent (offer : ℚ)
    (s : TitForTatProposerState) : TitForTatProposerState :=
  if offer ≠ 0 then { last_opponent_offer := some offer } else s

/-- Proposer half of a tit-for-tat proposer player. -/
def titForTatProposerPart : ProposerPart TitForTatProposerState :=
  { propose := fun s _ _ => (TitForTatProposer.propose s, s)
    receive_feedback := fun s _ _ _ => s
    observe_offer_from_opponent :=
      some fun offer s => TitForTatProposer.observe_offer_from_opponent offer s }

/-- State of `LearningProposer`. -/
structure LearningProposerState where
  current_offer : ℚ
  step_size : ℚ
deriving DecidableEq

/-- `LearningProposer.propose`: the current offer clamped to the bounds. -/
def LearningProposer.propose (s : LearningProposerState) (cfg : GameConfig) : ℚ :=
  max cfg.min_offer (min s.current_offer cfg.max_offer)

/-- `LearningProposer.receive_feedback`: move by the step size, up on
acceptance and down on rejection. -/
def LearningProposer.receive_feedback (s : LearningProposerState)
    (accepted : Bool) : LearningProposerState :=
  if accepted then { s with current_offer := s.current_offer + s.step_size }
  else { s with current_offer := s.current_offer - s.step_size }

/-- Proposer half of a learning player. -/
def learningPart : ProposerPart LearningProposerState :=
  { propose := fun s cfg _ => (LearningProposer.propose s cfg, s)
    receive_feedback := fun s accepted _ _ => LearningProposer.receive_feedback s accepted
    observe_offer_from_opponent := none }

/-- State of `BinarySearchProposer`: the bracket and the last offer. -/
structure BinarySearchProposerState where
  low : ℚ
  high : ℚ
  last_offer : ℚ
deriving DecidableEq

/-- `BinarySearchProposer.propose`: the bracket midpoint, also recorded in
`last_offer`. -/
def BinarySearchProposer.propose (s : BinarySearchProposerState) :
    ℚ × BinarySearchProposerState :=
  ((s.low + s.high) / 2, { s with last_offer := (s.low + s.high) / 2 })

/-- `BinarySearchProposer.receive_feedback`: on accept raise `low` to the
offer, on reject lower `high` to the offer. -/
def BinarySearchProposer.receive_feedback (s : BinarySearchProposerState)
    (accepted : Bool) (offer : ℚ) : BinarySearchProposerState :=
  if accepted then { s with low := max s.low offer }
  else { s with high := min s.high offer }

/-- One engine-driven round of the binary-search proposer: the feedback
call follows its own propose call for the same offer. -/
def bs_round (s : BinarySearchProposerState) (accepted : Bool) :
    BinarySearchProposerState :=
  BinarySearchProposer.receive_feedback (BinarySearchProposer.propose s).2
    accepted (BinarySearchProposer.propose s).1

/-- Engine-driven rounds of the binary-search proposer, one per response. -/
def bs_run (s : BinarySearchProposerState) (l : List Bool) :
    BinarySearchProposerState :=
  l.foldl bs_round s

/-- `UtilitarianResponder.respond`: accept exactly when the negated offer
strictly exceeds the flat cost of this player plus `receiver_bad`. -/
def UtilitarianResponder.respond (offer : ℚ) (cfg : GameConfig) (is_p1 : Bool) : Bool :=
  decide (-offer > get_bad_utility cfg is_p1 false)

/-- Responder rule of a stateless utilitarian player. -/
def utilitarianRule : Unit → ℚ → GameConfig → Bool → Bool × Unit :=
  fun u offer cfg is_p1 => (UtilitarianResponder.respond offer cfg is_p1, u)

/-- State of `TitForTatResponder`: the utility of the offer last fed back
(never fed by the engine loop). -/
structure TitForTatResponderState where
  last_offer : Option ℚ
deriving DecidableEq

/-- `TitForTatResponder.respond`: with no recorded offer, accept exactly
when better than rejecting; otherwise also require the utility to be at
least the recorded one.  The responder state is not changed by `respond`;
only `receive_feedback` writes it. -/
def TitForTatResponder.respond (s : TitForTatResponderState) (offer : ℚ)
    (cfg : GameConfig) (is_p1 : Bool) : Bool × TitForTatResponderState :=
  let current_utility := -offer
  let bad_utility := get_bad_utility cfg is_p1 false
  match s.last_offer with
  | none => (decide (current_utility > bad_utility), s)
  | some prev =>
      (decide (current_utility ≥ prev) && decide (current_utility > bad_utility), s)

/-- `TitForTatResponder.receive_feedback`: record the negated offer.  The
engine loop of `core.py` never calls this. -/
def TitForTatResponder.receive_feedback (_s : TitForTatResponderState)
    (offer : ℚ) : TitForTatResponderState :=
  { last_offer := some (-offer) }

/-- Responder rule of a tit-for-tat responder player. -/
def titForTatRule :
    TitForTatResponderState → ℚ → GameConfig → Bool → Bool × TitForTatResponderState :=
  fun s offer cfg is_p1 => TitForTatResponder.respond s offer cfg is_p1

/-- State of `StrategicRejectorResponder`. -/
structure StrategicRejectorState where
  stagnation_tolerance : ℕ
  epsilon : ℚ
  prev_offer : Option ℚ
  streak : ℕ
  min_offer : ℚ
deriving DecidableEq

/-- `StrategicRejectorResponder.respond`: protect against offers below the
rejection utility, accept unconditionally at the min-offer floor, then
apply the stagnation logic: the streak grows while the offer does not
decrease by more than epsilon and resets otherwise, and the response is
acceptance exactly while the streak is below the tolerance. -/
def StrategicRejectorResponder.respond (s : StrategicRejectorState)
    (offer : ℚ) (cfg : GameConfig) (is_p1 : Bool) :
    Bool × StrategicRejectorState :=
  let responder_utility := -offer
  let reject_utility := get_bad_utility cfg is_p1 false
  if responder_utility < reject_utility then (false, s)
  else if offer ≤ s.min_offer + s.epsilon then (true, s)
  else
    match s.prev_offer with
    | none => (true, { s with prev_offer := some offer })
    | some prev =>
        let streak1 := if offer ≥ prev - s.epsilon then s.streak + 1 else 0
        (decide (streak1 < s.stagnation_tolerance),
          { s with streak := streak1, prev_offer := some offer })

/-- Successive responses of a strategic-rejector responder to a list of
offers, threading its state. -/
def sr_respond_list (s : StrategicRejectorState) (offers : List ℚ)
    (cfg : GameConfig) (is_p1 : Bool) : List Bool × StrategicRejectorState :=
  match offers with
  | [] => ([], s)
  | x :: xs =>
      let r := StrategicRejectorResponder.respond s x cfg is_p1
      let rest := sr_respond_list r.2 xs cfg is_p1
      (r.1 :: rest.1, rest.2)

/-! ## Concrete games used in scenario theorems, counterexamples and witnesses -/

/-- A player whose proposer is `ConcedingProposer` and whose responder is
`UtilitarianResponder`. -/
def concedingUtilitarian : PlayerStrategies ConcedingProposerState Unit :=
  withResponder concedingPart utilitarianRule

/-- Configuration of the spec scenario: `Game(p=0, player_1_bad=-10,
player_2_bad=-10, proposer_bad=-5, receiver_bad=5, min_offer=0,
max_offer=100)` with `p_reject_bump=0`. -/
def scenarioConfig : GameConfig :=
  Game.mkConfig 0 (-10) (-10) (-5) 5 0 100 0

/-- Initial state of the spec scenario with a
`ConcedingProposer(start_offer=100, decrement=10)` for player 1. -/
def scenarioStart : GameState ConcedingProposerState Unit ConcedingProposerState Unit :=
  Game.init scenarioConfig ⟨100, 10⟩ () ⟨100, 10⟩ ()

/-- Scenario game with a conceding proposer starting at `0`: the first
offer is accepted, used to exercise the accepting branch of round
theorems. -/
def scenarioStartZero : GameState ConcedingProposerState Unit ConcedingProposerState Unit :=
  Game.init scenarioConfig ⟨0, 10⟩ () ⟨100, 10⟩ ()

/-- A player whose proposer is `TitForTatProposer` and whose responder is
`UtilitarianResponder`. -/
def titForTatUtilitarian : PlayerStrategies TitForTatProposerState Unit :=
  withResponder titForTatProposerPart utilitarianRule

/-- Scenario configuration with a positive offer floor `min_offer = 10`. -/
def boundsConfig : GameConfig :=
  Game.mkConfig 0 (-10) (-10) (-5) 5 10 100 0

/-- Game with `min_offer = 10` whose player 1 proposes with the
tit-for-tat proposer, which opens with the unclamped offer `0`. -/
def boundsStart : GameState TitForTatProposerState Unit ConcedingProposerState Unit :=
  Game.init boundsConfig ⟨none⟩ () ⟨100, 10⟩ ()

/-- A player whose proposer is `LearningProposer` and whose responder is
`UtilitarianResponder`. -/
def learningUtilitarian : PlayerStrategies LearningProposerState Unit :=
  withResponder learningPart utilitarianRule

/-- A player whose proposer is `ConcedingProposer` and whose responder is
`TitForTatResponder`. -/
def concedingTitForTat : PlayerStrategies ConcedingProposerState TitForTatResponderState :=
  withResponder concedingPart titForTatRule

/-- Scenario-configured game: player 1 runs `LearningProposer(start_offer=0,
step_size=3)`, player 2 responds with a fresh `TitForTatResponder`. -/
def ratchetStart : GameState LearningProposerState Unit ConcedingProposerState TitForTatResponderState :=
  Game.init scenarioConfig ⟨0, 3⟩ () ⟨100, 10⟩ ⟨none⟩

/-- Configuration violating the probability range: `p = 2` with otherwise
the scenario parameters. -/
def pRangeConfig : GameConfig :=
  Game.mkConfig 2 (-10) (-10) (-5) 5 0 100 0

/-- Game starting from `pRangeConfig` whose first offer (`0`) is accepted,
so that `p_current` is reset to the out-of-range base `2`. -/
def pRangeStart : GameState ConcedingProposerState Unit ConcedingProposerState Unit :=
  Game.init pRangeConfig ⟨0, 10⟩ () ⟨100, 10⟩ ()

/-- Configuration with a very negative flat cost for both players, so a
strategic-rejector responder is never protected by the reject-utility
floor in the offer range used by the stagnation theorems. -/
def srConfig : GameConfig :=
  Game.mkConfig 0 (-1000) (-1000) (-5) 0 0 100 0

/-- Scenario game whose player 1 carries a fresh `TitForTatResponder` as
its responder strategy (and a conceding proposer). -/
def tftEquivStart : GameState ConcedingProposerState TitForTatResponderState ConcedingProposerState Unit :=
  Game.init scenarioConfig ⟨100, 10⟩ ⟨none⟩ ⟨100, 10⟩ ()

/-! ## Engine lemmas -/

section PhaseLemmas

variable (S1 : PlayerStrategies σ1 ρ1) (S2 : PlayerStrategies σ2 ρ2)
variable (g : GameState σ1 ρ1 σ2 ρ2) (offer : ℚ) (accepted : Bool) (o : Oracle)

@[simp] lemma maybe_switch_cfg (dr : ℚ) : (maybe_switch g dr).cfg = g.cfg := rfl

@[simp] lemma maybe_switch_p_current (dr : ℚ) : (maybe_switch g dr).p_current = g.p_current := rfl

@[simp] lemma maybe_switch_u1 (dr : ℚ) : (maybe_switch g dr).u1 = g.u1 := rfl

@[simp] lemma maybe_switch_u2 (dr : ℚ) : (maybe_switch g dr).u2 = g.u2 := rfl

@[simp] lemma maybe_switch_prop1 (dr : ℚ) : (maybe_switch g dr).prop1 = g.prop1 := rfl

@[simp] lemma maybe_switch_resp1 (dr : ℚ) : (maybe_switch g dr).resp1 = g.resp1 := rfl

@[simp] lemma maybe_switch_prop2 (dr : ℚ) : (maybe_switch g dr).prop2 = g.prop2 := rfl

@[simp] lemma maybe_switch_resp2 (dr : ℚ) : (maybe_switch g dr).resp2 = g.resp2 := rfl

@[simp] lemma maybe_switch_history (dr : ℚ) : (maybe_switch g dr).history = g.history := rfl

@[simp] lemma propose_phase_cfg : (propose_phase S1 S2 g).2.cfg = g.cfg := by
  unfold propose_phase; split <;> rfl

@[simp] lemma propose_phase_p_current : (propose_phase S1 S2 g).2.p_current = g.p_current := by
  unfold propose_phase; split <;> rfl

@[simp] lemma propose_phase_u1 : (propose_phase S1 S2 g).2.u1 = g.u1 := by
  unfold propose_phase; split <;> rfl

@[simp] lemma propose_phase_u2 : (propose_phase S1 S2 g).2.u2 = g.u2 := by
  unfold propose_phase; split <;> rfl

@[simp] lemma propose_phase_resp1 : (propose_phase S1 S2 g).2.resp1 = g.resp1 := by
  unfold propose_phase; split <;> rfl

@[simp] lemma propose_phase_resp2 : (propose_phase S1 S2 g).2.resp2 = g.resp2 := by
  unfold propose_phase; split <;> rfl

@[simp] lemma propose_phase_roles : (propose_phase S1 S2 g).2.proposer_is_p1 = g.proposer_is_p1 := by
  unfold propose_phase; split <;> rfl

@[simp] lemma propose_phase_history : (propose_phase S1 S2 g).2.history = g.history := by
  unfold propose_phase; split <;> rfl

@[simp] lemma observe_phase_cfg : (observe_phase S1 S2 g offer).cfg = g.cfg := by
  unfold observe_phase; split <;> split <;> rfl

@[simp] lemma observe_phase_p_current : (observe_phase S1 S2 g offer).p_current = g.p_current := by
  unfold observe_phase; split <;> split <;> rfl

@[simp] lemma observe_phase_u1 : (observe_phase S1 S2 g offer).u1 = g.u1 := by
  unfold observe_phase; split <;> split <;> rfl

@[simp] lemma observe_phase_u2 : (observe_phase S1 S2 g offer).u2 = g.u2 := by
  unfold observe_phase; split <;> split <;> rfl

@[simp] lemma observe_phase_resp1 : (observe_phase S1 S2 g offer).resp1 = g.resp1 := by
  unfold observe_phase; split <;> split <;> rfl

@[simp] lemma observe_phase_resp2 : (observe_phase S1 S2 g offer).resp2 = g.resp2 := by
  unfold observe_phase; split <;> split <;> rfl

@[simp] lemma observe_phase_roles : (observe_phase S1 S2 g offer).proposer_is_p1 = g.proposer_is_p1 := by
  unfold observe_phase; split <;> split <;> rfl

@[simp] lemma observe_phase_history : (observe_phase S1 S2 g offer).history = g.history := by
  unfold observe_phase; split <;> split <;> rfl

@[simp] lemma respond_phase_cfg : (respond_phase S1 S2 g offer).2.cfg = g.cfg := by
  unfold respond_phase; split <;> rfl

@[simp] lemma respond_phase_p_current : (respond_phase S1 S2 g offer).2.p_current = g.p_current := by
  unfold respond_phase; split <;> rfl

@[simp] lemma respond_phase_u1 : (respond_phase S1 S2 g offer).2.u1 = g.u1 := by
  unfold respond_phase; split <;> rfl

@[simp] lemma respond_phase_u2 : (respond_phase S1 S2 g offer).2.u2 = g.u2 := by
  unfold respond_phase; split <;> rfl

@[simp] lemma respond_phase_prop1 : (respond_phase S1 S2 g offer).2.prop1 = g.prop1 := by
  unfold respond_phase; split <;> rfl

@[simp] lemma respond_phase_prop2 : (respond_phase S1 S2 g offer).2.prop2 = g.prop2 := by
  unfold respond_phase; split <;> rfl

@[simp] lemma respond_phase_roles : (respond_phase S1 S2 g offer).2.proposer_is_p1 = g.proposer_is_p1 := by
  unfold respond_phase; split <;> rfl

@[simp] lemma respond_phase_history : (respond_phase S1 S2 g offer).2.history = g.history := by
  unfold respond_phase; split <;> rfl

@[simp] lemma settle_cfg : (settle g offer accepted o).cfg = g.cfg := rfl

@[simp] lemma settle_prop1 : (settle g offer accepted o).prop1 = g.prop1 := rfl

@[simp] lemma settle_resp1 : (settle g offer accepted o).resp1 = g.resp1 := rfl

@[simp] lemma settle_prop2 : (settle g offer accepted o).prop2 = g.prop2 := rfl

@[simp] lemma settle_resp2 : (settle g offer accepted o).resp2 = g.resp2 := rfl

@[simp] lemma settle_roles : (settle g offer accepted o).proposer_is_p1 = g.proposer_is_p1 := rfl

lemma settle_p_current : (settle g offer accepted o).p_current =
    if accepted then (if g.cfg.p_reset_on_accept then g.cfg.p_base else g.p_current)
    else min 1 (g.p_current + g.cfg.p_reject_bump) := rfl

lemma settle_u1 : (settle g offer accepted o).u1 =
    if accepted then (if g.proposer_is_p1 then g.u1 + offer else g.u1 + -offer)
    else
      if g.proposer_is_p1 then g.u1 + (get_bad_utility g.cfg true true + o.proposer_jitter)
      else g.u1 + (get_bad_utility g.cfg true false + o.receiver_jitter) := rfl

lemma settle_u2 : (settle g offer accepted o).u2 =
    if accepted then (if g.proposer_is_p1 then g.u2 + -offer else g.u2 + offer)
    else
      if g.proposer_is_p1 then g.u2 + (get_bad_utility g.cfg false false + o.receiver_jitter)
      else g.u2 + (get_bad_utility g.cfg false true + o.proposer_jitter) := rfl

lemma settle_history : (settle g offer accepted o).history = g.history ++
    [{ round := g.history.length + 1
       proposer_is_p1 := g.proposer_is_p1
       offer := offer
       accepted := accepted
       player1_utility := (settle g offer accepted o).u1
       player2_utility := (settle g offer accepted o).u2
       next_round_switching_prob := (settle g offer accepted o).p_current }] := rfl

@[simp] lemma feedback_phase_cfg : (feedback_phase S1 S2 g accepted offer).cfg = g.cfg := by
  unfold feedback_phase; split <;> rfl

@[simp] lemma feedback_phase_p_current :
    (feedback_phase S1 S2 g accepted offer).p_current = g.p_current := by
  unfold feedback_phase; split <;> rfl

@[simp] lemma feedback_phase_u1 : (feedback_phase S1 S2 g accepted offer).u1 = g.u1 := by
  unfold feedback_phase; split <;> rfl

@[simp] lemma feedback_phase_u2 : (feedback_phase S1 S2 g accepted offer).u2 = g.u2 := by
  unfold feedback_phase; split <;> rfl

@[simp] lemma feedback_phase_resp1 : (feedback_phase S1 S2 g accepted offer).resp1 = g.resp1 := by
  unfold feedback_phase; split <;> rfl

@[simp] lemma feedback_phase_resp2 : (feedback_phase S1 S2 g accepted offer).resp2 = g.resp2 := by
  unfold feedback_phase; split <;> rfl

@[simp] lemma feedback_phase_roles :
    (feedback_phase S1 S2 g accepted offer).proposer_is_p1 = g.proposer_is_p1 := by
  unfold feedback_phase; split <;> rfl

@[simp] lemma feedback_phase_history :
    (feedback_phase S1 S2 g accepted offer).history = g.history := by
  unfold feedback_phase; split <;> rfl

end PhaseLemmas

section RoundLemmas

variable (S1 : PlayerStrategies σ1 ρ1) (S2 : PlayerStrategies σ2 ρ2)
variable (g : GameState σ1 ρ1 σ2 ρ2) (o : Oracle)

@[simp] lemma round_mid_cfg : (round_mid S1 S2 g).cfg = g.cfg := by
  simp [round_mid]

@[simp] lemma round_mid_p_current : (round_mid S1 S2 g).p_current = g.p_current := by
  simp [round_mid]

@[simp] lemma round_mid_u1 : (round_mid S1 S2 g).u1 = g.u1 := by
  simp [round_mid]

@[simp] lemma round_mid_u2 : (round_mid S1 S2 g).u2 = g.u2 := by
  simp [round_mid]

@[simp] lemma round_mid_resp1 : (round_mid S1 S2 g).resp1 = g.resp1 := by
  simp [round_mid]

@[simp] lemma round_mid_resp2 : (round_mid S1 S2 g).resp2 = g.resp2 := by
  simp [round_mid]

@[simp] lemma round_mid_roles : (round_mid S1 S2 g).proposer_is_p1 = g.proposer_is_p1 := by
  simp [round_mid]

@[simp] lemma round_mid_history : (round_mid S1 S2 g).history = g.history := by
  simp [round_mid]

@[simp] lemma play_round_cfg : (play_round S1 S2 g o).cfg = g.cfg := by
  simp [play_round]

lemma play_round_p_current_eq : (play_round S1 S2 g o).p_current =
    if round_accepted S1 S2 g then
      (if g.cfg.p_reset_on_accept then g.cfg.p_base else g.p_current)
    else min 1 (g.p_current + g.cfg.p_reject_bump) := by
  simp [play_round, settle_p_current]

lemma play_round_u1_eq : (play_round S1 S2 g o).u1 =
    if round_accepted S1 S2 g then
      (if g.proposer_is_p1 then g.u1 + round_offer S1 S2 g
       else g.u1 + -round_offer S1 S2 g)
    else
      if g.proposer_is_p1 then g.u1 + (get_bad_utility g.cfg true true + o.proposer_jitter)
      else g.u1 + (get_bad_utility g.cfg true false + o.receiver_jitter) := by
  simp [play_round, settle_u1]

lemma play_round_u2_eq : (play_round S1 S2 g o).u2 =
    if round_accepted S1 S2 g then
      (if g.proposer_is_p1 then g.u2 + -round_offer S1 S2 g
       else g.u2 + round_offer S1 S2 g)
    else
      if g.proposer_is_p1 then g.u2 + (get_bad_utility g.cfg false false + o.receiver_jitter)
      else g.u2 + (get_bad_utility g.cfg false true + o.proposer_jitter) := by
  simp [play_round, settle_u2]

lemma play_round_history_eq : (play_round S1 S2 g o).history = g.history ++
    [{ round := g.history.length + 1
       proposer_is_p1 := g.proposer_is_p1
       offer := round_offer S1 S2 g
       accepted := round_accepted S1 S2 g
       player1_utility := (play_round S1 S2 g o).u1
       player2_utility := (play_round S1 S2 g o).u2
       next_round_switching_prob := (play_round S1 S2 g o).p_current }] := by
  simp only [play_round, maybe_switch_history, maybe_switch_u1, maybe_switch_u2,
    maybe_switch_p_current, feedback_phase_history, feedback_phase_u1, feedback_phase_u2,
    feedback_phase_p_current, settle_history, respond_phase_history, observe_phase_history,
    propose_phase_history, respond_phase_roles, observe_phase_roles, propose_phase_roles,
    round_mid_history, round_mid_roles]

end RoundLemmas

/-! ## Claim theorems -/

/-- C1: in the scenario game, one round with zero penalty jitter (the
penalty ranges are the default `(0,0)`, so `random.uniform` returns `0`)
and any role-switch draw yields a rejection, utilities `-15` and `-5`, and
the single history record `{round 1, accepted false, player1_utility -15,
player2_utility -5}` with next switching probability `0`. -/
theorem scenario_first_round_rejected (d : ℚ) :
    (play_round concedingUtilitarian concedingUtilitarian scenarioStart
        ⟨0, 0, d⟩).u1 = -15 ∧
    (play_round concedingUtilitarian concedingUtilitarian scenarioStart
        ⟨0, 0, d⟩).u2 = -5 ∧
    (play_round concedingUtilitarian concedingUtilitarian scenarioStart
        ⟨0, 0, d⟩).history =
      [{ round := 1, proposer_is_p1 := true, offer := 100, accepted := false,
         player1_utility := -15, player2_utility := -5,
         next_round_switching_prob := 0 }] := by
  refine ⟨?_, ?_, ?_⟩ <;>
    norm_num [play_round, round_offer, round_accepted, round_mid, propose_phase,
      observe_phase, respond_phase, settle, feedback_phase, maybe_switch,
      concedingUtilitarian, concedingPart, withResponder, utilitarianRule,
      UtilitarianResponder.respond, ConcedingProposer.propose,
      ConcedingProposer.receive_feedback, get_bad_utility, scenarioStart,
      scenarioConfig, Game.init, Game.mkConfig]

/-- C2: in any round of any game, if the responder accepts, the change in
player 1 cumulative utility is the negative of the change in player 2
cumulative utility (the offer is a zero-sum transfer); if the responder
rejects, the proposer-side delta is the flat cost of the proposing player
plus `proposer_bad` plus its jitter draw, and the receiver-side delta is
the flat cost of the responding player plus `receiver_bad` plus its
jitter draw. -/
theorem accepted_round_transfer_zero_sum {σ1 ρ1 σ2 ρ2 : Type}
    (S1 : PlayerStrategies σ1 ρ1) (S2 : PlayerStrategies σ2 ρ2)
    (g : GameState σ1 ρ1 σ2 ρ2) (o : Oracle) :
    (round_accepted S1 S2 g = true →
      (play_round S1 S2 g o).u1 - g.u1 = -((play_round S1 S2 g o).u2 - g.u2)) ∧
    (round_accepted S1 S2 g = false →
      (if g.proposer_is_p1 then (play_round S1 S2 g o).u1 - g.u1
       else (play_round S1 S2 g o).u2 - g.u2) =
        get_bad_utility g.cfg g.proposer_is_p1 true + o.proposer_jitter ∧
      (if g.proposer_is_p1 then (play_round S1 S2 g o).u2 - g.u2
       else (play_round S1 S2 g o).u1 - g.u1) =
        get_bad_utility g.cfg (!g.proposer_is_p1) false + o.receiver_jitter) := by
  constructor
  · intro h
    rw [play_round_u1_eq, play_round_u2_eq, h]
    cases hb : g.proposer_is_p1 <;> simp [hb]
  · intro h
    rw [play_round_u1_eq, play_round_u2_eq, h]
    cases hb : g.proposer_is_p1 <;> simp [hb]

theorem accepted_round_transfer_zero_sum_witness :
    (round_accepted concedingUtilitarian concedingUtilitarian scenarioStartZero = true ∧
      (play_round concedingUtilitarian concedingUtilitarian scenarioStartZero
          ⟨0, 0, (1:ℚ)/2⟩).u1 - scenarioStartZero.u1 =
        -((play_round concedingUtilitarian concedingUtilitarian scenarioStartZero
          ⟨0, 0, (1:ℚ)/2⟩).u2 - scenarioStartZero.u2)) ∧
    (round_accepted concedingUtilitarian concedingUtilitarian scenarioStart = false ∧
      (if scenarioStart.proposer_is_p1 then
        (play_round concedingUtilitarian concedingUtilitarian scenarioStart
          ⟨0, 0, (1:ℚ)/2⟩).u1 - scenarioStart.u1
       else (play_round concedingUtilitarian concedingUtilitarian scenarioStart
          ⟨0, 0, (1:ℚ)/2⟩).u2 - scenarioStart.u2) =
        get_bad_utility scenarioStart.cfg scenarioStart.proposer_is_p1 true +
          (Oracle.mk 0 0 ((1:ℚ)/2)).proposer_jitter ∧
      (if scenarioStart.proposer_is_p1 then
        (play_round concedingUtilitarian concedingUtilitarian scenarioStart
          ⟨0, 0, (1:ℚ)/2⟩).u2 - scenarioStart.u2
       else (play_round concedingUtilitarian concedingUtilitarian scenarioStart
          ⟨0, 0, (1:ℚ)/2⟩).u1 - scenarioStart.u1) =
        get_bad_utility scenarioStart.cfg (!scenarioStart.proposer_is_p1) false +
          (Oracle.mk 0 0 ((1:ℚ)/2)).receiver_jitter) := by
  have hacc : round_accepted concedingUtilitarian concedingUtilitarian scenarioStartZero = true := by
    norm_num [round_accepted, round_mid, round_offer, propose_phase, observe_phase,
      respond_phase, concedingUtilitarian, concedingPart, withResponder, utilitarianRule,
      UtilitarianResponder.respond, ConcedingProposer.propose, get_bad_utility,
      scenarioStartZero, scenarioConfig, Game.init, Game.mkConfig]
  have hrej : round_accepted concedingUtilitarian concedingUtilitarian scenarioStart = false := by
    norm_num [round_accepted, round_mid, round_offer, propose_phase, observe_phase,
      respond_phase, concedingUtilitarian, concedingPart, withResponder, utilitarianRule,
      UtilitarianResponder.respond, ConcedingProposer.propose, get_bad_utility,
      scenarioStart, scenarioConfig, Game.init, Game.mkConfig]
  exact ⟨⟨hacc, (accepted_round_transfer_zero_sum concedingUtilitarian concedingUtilitarian
      scenarioStartZero ⟨0, 0, (1:ℚ)/2⟩).1 hacc⟩,
    ⟨hrej, (accepted_round_transfer_zero_sum concedingUtilitarian concedingUtilitarian
      scenarioStart ⟨0, 0, (1:ℚ)/2⟩).2 hrej⟩⟩

/-- C9: in any round, on acceptance `p_current` becomes `p_base` when
reset-on-accept is configured, on rejection it becomes
`min 1 (p_current + p_reject_bump)`, and the round record appended to the
history stores the updated value in `next_round_switching_prob` (together
with the responder decision in `accepted`). -/
theorem round_switch_probability_update {σ1 ρ1 σ2 ρ2 : Type}
    (S1 : PlayerStrategies σ1 ρ1) (S2 : PlayerStrategies σ2 ρ2)
    (g : GameState σ1 ρ1 σ2 ρ2) (o : Oracle) (r : RoundRecord)
    (hr : (play_round S1 S2 g o).history = g.history ++ [r]) :
    (round_accepted S1 S2 g = true → g.cfg.p_reset_on_accept = true →
      (play_round S1 S2 g o).p_current = g.cfg.p_base) ∧
    (round_accepted S1 S2 g = false →
      (play_round S1 S2 g o).p_current = min 1 (g.p_current + g.cfg.p_reject_bump)) ∧
    r.next_round_switching_prob = (play_round S1 S2 g o).p_current ∧
    r.accepted = round_accepted S1 S2 g := by
  have hrec := play_round_history_eq S1 S2 g o
  rw [hrec] at hr
  have hr2 := List.append_cancel_left hr
  have hrr := (List.cons_eq_cons.mp hr2.symm).1
  refine ⟨fun h hreset => ?_, fun h => ?_, ?_, ?_⟩
  · rw [play_round_p_current_eq, h, hreset]; simp
  · rw [play_round_p_current_eq, h]; simp
  · rw [hrr]
  · rw [hrr]

theorem round_switch_probability_update_witness :
    ((play_round concedingUtilitarian concedingUtilitarian scenarioStart
        ⟨0, 0, (1:ℚ)/2⟩).history = scenarioStart.history ++
      [{ round := 1, proposer_is_p1 := true, offer := 100, accepted := false,
         player1_utility := -15, player2_utility := -5,
         next_round_switching_prob := 0 }]) ∧
    (play_round concedingUtilitarian concedingUtilitarian scenarioStart
        ⟨0, 0, (1:ℚ)/2⟩).p_current =
      min 1 (scenarioStart.p_current + scenarioStart.cfg.p_reject_bump) ∧
    RoundRecord.next_round_switching_prob
      { round := 1, proposer_is_p1 := true, offer := 100, accepted := false,
        player1_utility := -15, player2_utility := -5,
        next_round_switching_prob := 0 } =
      (play_round concedingUtilitarian concedingUtilitarian scenarioStart
        ⟨0, 0, (1:ℚ)/2⟩).p_current := by
  have hhist : (play_round concedingUtilitarian concedingUtilitarian scenarioStart
      ⟨0, 0, (1:ℚ)/2⟩).history = scenarioStart.history ++
      [{ round := 1, proposer_is_p1 := true, offer := 100, accepted := false,
         player1_utility := -15, player2_utility := -5,
         next_round_switching_prob := 0 }] := by
    norm_num [play_round, round_offer, round_accepted, round_mid, propose_phase,
      observe_phase, respond_phase, settle, feedback_phase, maybe_switch,
      concedingUtilitarian, concedingPart, withResponder, utilitarianRule,
      UtilitarianResponder.respond, ConcedingProposer.propose,
      ConcedingProposer.receive_feedback, get_bad_utility, scenarioStart,
      scenarioConfig, Game.init, Game.mkConfig]
  have hrej : round_accepted concedingUtilitarian concedingUtilitarian scenarioStart = false := by
    norm_num [round_accepted, round_mid, round_offer, propose_phase, observe_phase,
      respond_phase, concedingUtilitarian, concedingPart, withResponder, utilitarianRule,
      UtilitarianResponder.respond, ConcedingProposer.propose, get_bad_utility,
      scenarioStart, scenarioConfig, Game.init, Game.mkConfig]
  have h := round_switch_probability_update concedingUtilitarian concedingUtilitarian
    scenarioStart ⟨0, 0, (1:ℚ)/2⟩ _ hhist
  exact ⟨hhist, h.2.1 hrej, h.2.2.1⟩

/-- One round keeps `p_current` inside `[0, 1]` provided the configured
base probability lies in `[0, 1]` and the bump is nonnegative. -/
lemma play_round_p_range {σ1 ρ1 σ2 ρ2 : Type}
    (S1 : PlayerStrategies σ1 ρ1) (S2 : PlayerStrategies σ2 ρ2)
    (g : GameState σ1 ρ1 σ2 ρ2) (o : Oracle)
    (hb0 : 0 ≤ g.cfg.p_base) (hb1 : g.cfg.p_base ≤ 1)
    (hbump : 0 ≤ g.cfg.p_reject_bump)
    (h0 : 0 ≤ g.p_current) (h1 : g.p_current ≤ 1) :
    0 ≤ (play_round S1 S2 g o).p_current ∧ (play_round S1 S2 g o).p_current ≤ 1 := by
  rw [play_round_p_current_eq]
  by_cases hacc : round_accepted S1 S2 g = true
  · rw [if_pos hacc]
    by_cases hres : g.cfg.p_reset_on_accept = true
    · rw [if_pos hres]; exact ⟨hb0, hb1⟩
    · rw [if_neg hres]; exact ⟨h0, h1⟩
  · rw [if_neg hacc]
    exact ⟨le_min (by norm_num) (by linarith), min_le_left _ _⟩

/-- Any number of rounds keeps `p_current` inside `[0, 1]` under the same
configuration conditions. -/
lemma run_p_range {σ1 ρ1 σ2 ρ2 : Type}
    (S1 : PlayerStrategies σ1 ρ1) (S2 : PlayerStrategies σ2 ρ2)
    (os : List Oracle) :
    ∀ g : GameState σ1 ρ1 σ2 ρ2, 0 ≤ g.cfg.p_base → g.cfg.p_base ≤ 1 →
      0 ≤ g.cfg.p_reject_bump → 0 ≤ g.p_current → g.p_current ≤ 1 →
      0 ≤ (Game.run S1 S2 g os).p_current ∧ (Game.run S1 S2 g os).p_current ≤ 1 := by
  induction os with
  | nil => exact fun g _ _ _ h0 h1 => ⟨h0, h1⟩
  | cons o os ih =>
      intro g hb0 hb1 hbump h0 h1
      have hstep := play_round_p_range S1 S2 g o hb0 hb1 hbump h0 h1
      have hcfg := play_round_cfg S1 S2 g o
      simpa [Game.run] using ih (play_round S1 S2 g o)
        (by rw [hcfg]; exact hb0) (by rw [hcfg]; exact hb1)
        (by rw [hcfg]; exact hbump) hstep.1 hstep.2

/-- C3 counterexample: with configured `p = 2` (the constructor accepts any
value) the first accepted round resets `p_current` to `2`, outside `[0,1]`. -/
theorem p_range_counterexample :
    ¬ (0 ≤ (play_round concedingUtilitarian concedingUtilitarian pRangeStart
          ⟨0, 0, (1:ℚ)/2⟩).p_current ∧
       (play_round concedingUtilitarian concedingUtilitarian pRangeStart
          ⟨0, 0, (1:ℚ)/2⟩).p_current ≤ 1) := by
  have hp : (play_round concedingUtilitarian concedingUtilitarian pRangeStart
      ⟨0, 0, (1:ℚ)/2⟩).p_current = 2 := by
    norm_num [play_round, round_offer, round_accepted, round_mid, propose_phase,
      observe_phase, respond_phase, settle, feedback_phase, maybe_switch,
      concedingUtilitarian, concedingPart, withResponder, utilitarianRule,
      UtilitarianResponder.respond, ConcedingProposer.propose,
      ConcedingProposer.receive_feedback, get_bad_utility, pRangeStart,
      pRangeConfig, Game.init, Game.mkConfig]
  rw [hp]; norm_num

/-- C3 amended: for every game whose configured `p` lies in `[0, 1]` and
whose `p_reject_bump` is nonnegative, `p_current` lies in `[0, 1]` after
every round (the code itself never validates the configuration, so the
restriction to in-range configurations is necessary). -/
theorem p_current_in_unit_interval {σ1 ρ1 σ2 ρ2 : Type}
    (S1 : PlayerStrategies σ1 ρ1) (S2 : PlayerStrategies σ2 ρ2)
    (cfg : GameConfig) (hb0 : 0 ≤ cfg.p_base) (hb1 : cfg.p_base ≤ 1)
    (hbump : 0 ≤ cfg.p_reject_bump)
    (p1 : σ1) (r1 : ρ1) (p2 : σ2) (r2 : ρ2) (os : List Oracle) :
    0 ≤ (Game.run S1 S2 (Game.init cfg p1 r1 p2 r2) os).p_current ∧
      (Game.run S1 S2 (Game.init cfg p1 r1 p2 r2) os).p_current ≤ 1 :=
  run_p_range S1 S2 os (Game.init cfg p1 r1 p2 r2) hb0 hb1 hbump hb0 hb1

theorem p_current_in_unit_interval_witness :
    (0 ≤ scenarioConfig.p_base ∧ scenarioConfig.p_base ≤ 1 ∧
      0 ≤ scenarioConfig.p_reject_bump) ∧
    (0 ≤ (Game.run concedingUtilitarian concedingUtilitarian
        (Game.init scenarioConfig ⟨100, 10⟩ () ⟨100, 10⟩ ())
        [⟨0, 0, (1:ℚ)/2⟩]).p_current ∧
      (Game.run concedingUtilitarian concedingUtilitarian
        (Game.init scenarioConfig ⟨100, 10⟩ () ⟨100, 10⟩ ())
        [⟨0, 0, (1:ℚ)/2⟩]).p_current ≤ 1) := by
  have h1 : (0:ℚ) ≤ scenarioConfig.p_base := by norm_num [scenarioConfig, Game.mkConfig]
  have h2 : scenarioConfig.p_base ≤ 1 := by norm_num [scenarioConfig, Game.mkConfig]
  have h3 : (0:ℚ) ≤ scenarioConfig.p_reject_bump := by norm_num [scenarioConfig, Game.mkConfig]
  exact ⟨⟨h1, h2, h3⟩, p_current_in_unit_interval concedingUtilitarian concedingUtilitarian
    scenarioConfig h1 h2 h3 ⟨100, 10⟩ () ⟨100, 10⟩ () [⟨0, 0, (1:ℚ)/2⟩]⟩

/-- C4 counterexample: with `min_offer = 10`, a tit-for-tat proposer that
has observed nothing returns the offer `0`; the engine records it without
re-clamping, so the recorded offer violates `min_offer ≤ offer`. -/
theorem offer_bounds_counterexample :
    (play_round titForTatUtilitarian concedingUtilitarian boundsStart
        ⟨0, 0, (1:ℚ)/2⟩).history =
      [{ round := 1, proposer_is_p1 := true, offer := 0, accepted := true,
         player1_utility := 0, player2_utility := 0,
         next_round_switching_prob := 0 }] ∧
    ¬ (boundsStart.cfg.min_offer ≤ (0:ℚ)) := by
  constructor
  · norm_num [play_round, round_offer, round_accepted, round_mid, propose_phase,
      observe_phase, respond_phase, settle, feedback_phase, maybe_switch,
      titForTatUtilitarian, titForTatProposerPart, TitForTatProposer.propose,
      concedingUtilitarian, concedingPart, withResponder, utilitarianRule,
      UtilitarianResponder.respond, ConcedingProposer.propose, get_bad_utility,
      boundsStart, boundsConfig, Game.init, Game.mkConfig]
  · norm_num [boundsStart, boundsConfig, Game.init, Game.mkConfig]

/-- C4 amended: the strategies that clamp (`ConcedingProposer`,
`LearningProposer`, `RandomProposer`) always return offers inside
`[min_offer, max_offer]` when the bounds are ordered; the engine performs
no re-clamping of its own, and a non-clamping strategy such as
`TitForTatProposer` can hand it an out-of-bounds offer. -/
theorem clamping_proposers_within_bounds (cfg : GameConfig)
    (h : cfg.min_offer ≤ cfg.max_offer) :
    (∀ s : ConcedingProposerState,
      cfg.min_offer ≤ ConcedingProposer.propose s cfg ∧
        ConcedingProposer.propose s cfg ≤ cfg.max_offer) ∧
    (∀ s : LearningProposerState,
      cfg.min_offer ≤ LearningProposer.propose s cfg ∧
        LearningProposer.propose s cfg ≤ cfg.max_offer) ∧
    (∀ (s : RandomProposerState) (draw v : ℚ),
      RandomProposer.propose s cfg draw = Except.ok v →
        cfg.min_offer ≤ v ∧ v ≤ cfg.max_offer) := by
  refine ⟨fun s => ⟨le_max_left _ _, max_le h (min_le_right _ _)⟩,
    fun s => ⟨le_max_left _ _, max_le h (min_le_right _ _)⟩, ?_⟩
  intro s draw v hok
  unfold RandomProposer.propose at hok
  by_cases h1 : s.distribution = "uniform"
  · rw [if_pos h1] at hok
    injection hok with hv
    rw [← hv]
    exact ⟨le_max_left _ _, max_le h (min_le_right _ _)⟩
  · rw [if_neg h1] at hok
    by_cases h2 : s.distribution = "normal"
    · rw [if_pos h2] at hok
      cases hm : s.mean <;> cases hs : s.stddev <;> rw [hm, hs] at hok <;>
        first
          | (injection hok with hv; rw [← hv];
             exact ⟨le_max_left _ _, max_le h (min_le_right _ _)⟩)
          | exact absurd hok (by simp)
    · rw [if_neg h2] at hok
      exact absurd hok (by simp)

theorem clamping_proposers_within_bounds_witness :
    scenarioConfig.min_offer ≤ scenarioConfig.max_offer ∧
    (scenarioConfig.min_offer ≤ ConcedingProposer.propose ⟨150, 10⟩ scenarioConfig ∧
      ConcedingProposer.propose ⟨150, 10⟩ scenarioConfig ≤ scenarioConfig.max_offer) ∧
    (scenarioConfig.min_offer ≤ LearningProposer.propose ⟨-7, 3⟩ scenarioConfig ∧
      LearningProposer.propose ⟨-7, 3⟩ scenarioConfig ≤ scenarioConfig.max_offer) ∧
    (scenarioConfig.min_offer ≤ (100:ℚ) ∧ (100:ℚ) ≤ scenarioConfig.max_offer) := by
  have h : scenarioConfig.min_offer ≤ scenarioConfig.max_offer := by
    norm_num [scenarioConfig, Game.mkConfig]
  have hok : RandomProposer.propose ⟨"uniform", none, none⟩ scenarioConfig 250 =
      Except.ok 100 := by
    norm_num [RandomProposer.propose, scenarioConfig, Game.mkConfig, min_def, max_def]
  exact ⟨h, (clamping_proposers_within_bounds scenarioConfig h).1 ⟨150, 10⟩,
    (clamping_proposers_within_bounds scenarioConfig h).2.1 ⟨-7, 3⟩,
    (clamping_proposers_within_bounds scenarioConfig h).2.2 ⟨"uniform", none, none⟩ 250 100 hok⟩

/-- C5 failing run: learning proposer `(start_offer=0, step_size=3)`
against a tit-for-tat responder in the scenario game.  Round 1 (offer 0)
is accepted with responder utility 0; round 2 (offer 3) is accepted with
responder utility -3 < 0, so the documented ratchet does not hold: the
engine never calls the responder `receive_feedback`, hence `last_offer`
stays `none` and the responder keeps behaving like the first round. -/
theorem tft_responder_ratchet_violation :
    (Game.run learningUtilitarian concedingTitForTat ratchetStart
        [⟨0, 0, (1:ℚ)/2⟩, ⟨0, 0, (1:ℚ)/2⟩]).history =
      [{ round := 1, proposer_is_p1 := true, offer := 0, accepted := true,
         player1_utility := 0, player2_utility := 0,
         next_round_switching_prob := 0 },
       { round := 2, proposer_is_p1 := true, offer := 3, accepted := true,
         player1_utility := 3, player2_utility := -3,
         next_round_switching_prob := 0 }] ∧
    (Game.run learningUtilitarian concedingTitForTat ratchetStart
        [⟨0, 0, (1:ℚ)/2⟩, ⟨0, 0, (1:ℚ)/2⟩]).resp2 =
      TitForTatResponderState.mk none := by
  constructor <;>
    norm_num [Game.run, play_round, round_offer, round_accepted, round_mid,
      propose_phase, observe_phase, respond_phase, settle, feedback_phase,
      maybe_switch, learningUtilitarian, learningPart, LearningProposer.propose,
      LearningProposer.receive_feedback, concedingTitForTat, concedingPart,
      withResponder, utilitarianRule, UtilitarianResponder.respond, titForTatRule,
      TitForTatResponder.respond, get_bad_utility, ratchetStart, scenarioConfig,
      Game.init, Game.mkConfig]

/-- C6: `RandomProposer.propose` fails with the missing-parameters
configuration error when the distribution is normal and the mean or the
stddev is absent, and fails with the unknown-distribution configuration
error when the distribution name is neither uniform nor normal; in both
cases the failure is the result of the call itself. -/
theorem random_proposer_configuration_errors (s : RandomProposerState)
    (cfg : GameConfig) (draw : ℚ) :
    (s.distribution = "normal" → (s.mean = none ∨ s.stddev = none) →
      RandomProposer.propose s cfg draw =
        Except.error ConfigurationError.missingMeanStddev) ∧
    (s.distribution ≠ "uniform" → s.distribution ≠ "normal" →
      RandomProposer.propose s cfg draw =
        Except.error (ConfigurationError.unknownDistribution s.distribution)) := by
  constructor
  · intro h1 h2
    unfold RandomProposer.propose
    rw [if_neg (by rw [h1]; decide), if_pos h1]
    rcases h2 with h | h
    · rw [h]
    · rw [h]
      cases s.mean <;> rfl
  · intro h1 h2
    unfold RandomProposer.propose
    rw [if_neg h1, if_neg h2]

theorem random_proposer_configuration_errors_witness :
    RandomProposer.propose ⟨"normal", none, some 1⟩ scenarioConfig 0 =
      Except.error ConfigurationError.missingMeanStddev ∧
    RandomProposer.propose ⟨"pareto", none, none⟩ scenarioConfig 0 =
      Except.error (ConfigurationError.unknownDistribution "pareto") :=
  ⟨(random_proposer_configuration_errors ⟨"normal", none, some 1⟩ scenarioConfig 0).1
      rfl (Or.inl rfl),
    (random_proposer_configuration_errors ⟨"pareto", none, none⟩ scenarioConfig 0).2
      (by decide) (by decide)⟩

/-- Strategic rejector, fresh-state call with an acceptable offer above
the floor: accept and record the offer. -/
lemma sr_step_none (s : StrategicRejectorState) (offer : ℚ) (cfg : GameConfig)
    (is_p1 : Bool) (h1 : get_bad_utility cfg is_p1 false ≤ -offer)
    (h2 : s.min_offer + s.epsilon < offer) (h3 : s.prev_offer = none) :
    StrategicRejectorResponder.respond s offer cfg is_p1 =
      (true, { s with prev_offer := some offer }) := by
  unfold StrategicRejectorResponder.respond
  rw [if_neg (not_lt.mpr h1), if_neg (not_le.mpr h2), h3]

/-- Strategic rejector, non-decreasing offer: the streak grows and the
response is acceptance exactly while it stays below the tolerance. -/
lemma sr_step_stag (s : StrategicRejectorState) (offer prev : ℚ)
    (cfg : GameConfig) (is_p1 : Bool)
    (h1 : get_bad_utility cfg is_p1 false ≤ -offer)
    (h2 : s.min_offer + s.epsilon < offer) (h3 : s.prev_offer = some prev)
    (h4 : offer ≥ prev - s.epsilon) :
    StrategicRejectorResponder.respond s offer cfg is_p1 =
      (decide (s.streak + 1 < s.stagnation_tolerance),
        { s with streak := s.streak + 1, prev_offer := some offer }) := by
  unfold StrategicRejectorResponder.respond
  rw [if_neg (not_lt.mpr h1), if_neg (not_le.mpr h2), h3]
  simp only [if_pos h4]

/-- Strategic rejector, offer decreased by more than epsilon: the streak
resets to zero. -/
lemma sr_step_reset (s : StrategicRejectorState) (offer prev : ℚ)
    (cfg : GameConfig) (is_p1 : Bool)
    (h1 : get_bad_utility cfg is_p1 false ≤ -offer)
    (h2 : s.min_offer + s.epsilon < offer) (h3 : s.prev_offer = some prev)
    (h4 : ¬ (offer ≥ prev - s.epsilon)) :
    StrategicRejectorResponder.respond s offer cfg is_p1 =
      (decide (0 < s.stagnation_tolerance),
        { s with streak := 0, prev_offer := some offer }) := by
  unfold StrategicRejectorResponder.respond
  rw [if_neg (not_lt.mpr h1), if_neg (not_le.mpr h2), h3]
  simp only [if_neg h4]

/-- C7 counterexample: with tolerance 4 and a proposer repeating the offer
`10` (above the floor `0 + 1/100` and far above the reject-utility floor
`-1000`), the responses are accept four times, then reject; but when the
offer then *changes* to `20` (still above both floors) the code still
rejects: the streak resets only on a decrease of more than epsilon, not
on any change. -/
theorem strategic_rejector_counterexample :
    (sr_respond_list ⟨4, 1/100, none, 0, 0⟩ [10, 10, 10, 10, 10, 20]
        srConfig true).1 = [true, true, true, true, false, false] ∧
    ¬ ((sr_respond_list ⟨4, 1/100, none, 0, 0⟩ [10, 10, 10, 10, 10, 20]
        srConfig true).1 = [true, true, true, true, false, true]) := by
  have h : (sr_respond_list ⟨4, 1/100, none, 0, 0⟩ [10, 10, 10, 10, 10, 20]
      srConfig true).1 = [true, true, true, true, false, false] := by
    norm_num [sr_respond_list, StrategicRejectorResponder.respond,
      get_bad_utility, srConfig, Game.mkConfig]
  exact ⟨h, by rw [h]; simp⟩

/-- C7 amended: with `stagnation_tolerance = 4`, a repeated identical
offer (strictly above the floor plus epsilon and at least the
reject-utility floor) is accepted exactly 4 times and rejected on the
5th; the streak resets (allowing acceptance again) when the offer then
*decreases by more than epsilon* (an unchanged or increased offer keeps
growing the streak). -/
theorem strategic_rejector_stagnation (cfg : GameConfig) (is_p1 : Bool)
    (x y m ε : ℚ) (hε : 0 ≤ ε)
    (hx_floor : m + ε < x) (hx_util : get_bad_utility cfg is_p1 false ≤ -x)
    (hy_floor : m + ε < y) (hy_util : get_bad_utility cfg is_p1 false ≤ -y)
    (hy_dec : y < x - ε) :
    (sr_respond_list ⟨4, ε, none, 0, m⟩ [x, x, x, x, x, y] cfg is_p1).1 =
      [true, true, true, true, false, true] := by
  have e1 : StrategicRejectorResponder.respond ⟨4, ε, none, 0, m⟩ x cfg is_p1 =
      (true, ⟨4, ε, some x, 0, m⟩) :=
    sr_step_none _ x cfg is_p1 hx_util hx_floor rfl
  have hstag : (x:ℚ) ≥ x - ε := by linarith
  have e2 : StrategicRejectorResponder.respond ⟨4, ε, some x, 0, m⟩ x cfg is_p1 =
      (true, ⟨4, ε, some x, 1, m⟩) := by
    have := sr_step_stag ⟨4, ε, some x, 0, m⟩ x x cfg is_p1 hx_util hx_floor rfl hstag
    simpa using this
  have e3 : StrategicRejectorResponder.respond ⟨4, ε, some x, 1, m⟩ x cfg is_p1 =
      (true, ⟨4, ε, some x, 2, m⟩) := by
    have := sr_step_stag ⟨4, ε, some x, 1, m⟩ x x cfg is_p1 hx_util hx_floor rfl hstag
    simpa using this
  have e4 : StrategicRejectorResponder.respond ⟨4, ε, some x, 2, m⟩ x cfg is_p1 =
      (true, ⟨4, ε, some x, 3, m⟩) := by
    have := sr_step_stag ⟨4, ε, some x, 2, m⟩ x x cfg is_p1 hx_util hx_floor rfl hstag
    simpa using this
  have e5 : StrategicRejectorResponder.respond ⟨4, ε, some x, 3, m⟩ x cfg is_p1 =
      (false, ⟨4, ε, some x, 4, m⟩) := by
    have := sr_step_stag ⟨4, ε, some x, 3, m⟩ x x cfg is_p1 hx_util hx_floor rfl hstag
    simpa using this
  have e6 : StrategicRejectorResponder.respond ⟨4, ε, some x, 4, m⟩ y cfg is_p1 =
      (true, ⟨4, ε, some y, 0, m⟩) := by
    have := sr_step_reset ⟨4, ε, some x, 4, m⟩ y x cfg is_p1 hy_util hy_floor rfl
      (not_le.mpr (by linarith))
    simpa using this
  simp only [sr_respond_list, e1, e2, e3, e4, e5, e6]

theorem strategic_rejector_stagnation_witness :
    ((0:ℚ) ≤ 1/100 ∧ (0:ℚ) + 1/100 < 10 ∧
      get_bad_utility srConfig true false ≤ -10 ∧ (0:ℚ) + 1/100 < 8 ∧
      get_bad_utility srConfig true false ≤ -8 ∧ (8:ℚ) < 10 - 1/100) ∧
    (sr_respond_list ⟨4, 1/100, none, 0, 0⟩ [10, 10, 10, 10, 10, 8]
        srConfig true).1 = [true, true, true, true, false, true] := by
  have h1 : (0:ℚ) ≤ 1/100 := by norm_num
  have h2 : (0:ℚ) + 1/100 < 10 := by norm_num
  have h3 : get_bad_utility srConfig true false ≤ -10 := by
    norm_num [get_bad_utility, srConfig, Game.mkConfig]
  have h4 : (0:ℚ) + 1/100 < 8 := by norm_num
  have h5 : get_bad_utility srConfig true false ≤ -8 := by
    norm_num [get_bad_utility, srConfig, Game.mkConfig]
  have h6 : (8:ℚ) < 10 - 1/100 := by norm_num
  exact ⟨⟨h1, h2, h3, h4, h5, h6⟩,
    strategic_rejector_stagnation srConfig true 10 8 0 (1/100) h1 h2 h3 h4 h5 h6⟩

/-- One engine-driven binary-search round keeps the bracket ordered and
never widens it. -/
lemma bs_round_bracket (s : BinarySearchProposerState) (a : Bool)
    (h : s.low ≤ s.high) :
    (bs_round s a).low ≤ (bs_round s a).high ∧
    (bs_round s a).high - (bs_round s a).low ≤ s.high - s.low := by
  unfold bs_round BinarySearchProposer.propose BinarySearchProposer.receive_feedback
  cases a <;> simp <;> constructor
  · exact h
  · have hm : min s.high ((s.low + s.high) / 2) ≤ s.high := min_le_left _ _
    linarith
  · exact ⟨h, by linarith⟩
  · have hm : s.low ≤ max s.low ((s.low + s.high) / 2) := le_max_left _ _
    linarith

/-- Any number of engine-driven binary-search rounds keeps the bracket
ordered and never widens it. -/
lemma bs_run_bracket (l : List Bool) :
    ∀ s : BinarySearchProposerState, s.low ≤ s.high →
      (bs_run s l).low ≤ (bs_run s l).high ∧
      (bs_run s l).high - (bs_run s l).low ≤ s.high - s.low := by
  induction l with
  | nil => exact fun s h => ⟨h, le_refl _⟩
  | cons a l ih =>
      intro s h
      have hstep := bs_round_bracket s a h
      have hrec := ih (bs_round s a) hstep.1
      constructor
      · simpa [bs_run] using hrec.1
      · have h1 : (bs_run (bs_round s a) l).high - (bs_run (bs_round s a) l).low ≤
            (bs_round s a).high - (bs_round s a).low := hrec.2
        have h2 : (bs_run s (a :: l)) = bs_run (bs_round s a) l := by simp [bs_run]
        rw [h2]
        linarith [hstep.2]

/-- C8: for a binary-search proposer driven in the engine pattern (each
feedback call follows its own propose call for the same midpoint offer),
if the bracket starts ordered then it is ordered after every feedback
call, and the bracket width never increases from one round to the next. -/
theorem binary_search_bracket_invariant (s0 : BinarySearchProposerState)
    (h : s0.low ≤ s0.high) (l : List Bool) (a : Bool) :
    (bs_run s0 l).low ≤ (bs_run s0 l).high ∧
    (bs_round (bs_run s0 l) a).low ≤ (bs_round (bs_run s0 l) a).high ∧
    (bs_round (bs_run s0 l) a).high - (bs_round (bs_run s0 l) a).low ≤
      (bs_run s0 l).high - (bs_run s0 l).low := by
  have h1 := bs_run_bracket l s0 h
  have h2 := bs_round_bracket (bs_run s0 l) a h1.1
  exact ⟨h1.1, h2.1, h2.2⟩

theorem binary_search_bracket_invariant_witness :
    (BinarySearchProposerState.mk 0 100 50).low ≤
      (BinarySearchProposerState.mk 0 100 50).high ∧
    ((bs_run ⟨0, 100, 50⟩ [true]).low ≤ (bs_run ⟨0, 100, 50⟩ [true]).high ∧
      (bs_round (bs_run ⟨0, 100, 50⟩ [true]) false).low ≤
        (bs_round (bs_run ⟨0, 100, 50⟩ [true]) false).high ∧
      (bs_round (bs_run ⟨0, 100, 50⟩ [true]) false).high -
          (bs_round (bs_run ⟨0, 100, 50⟩ [true]) false).low ≤
        (bs_run ⟨0, 100, 50⟩ [true]).high - (bs_run ⟨0, 100, 50⟩ [true]).low) := by
  have h : (BinarySearchProposerState.mk 0 100 50).low ≤
      (BinarySearchProposerState.mk 0 100 50).high := by norm_num
  exact ⟨h, binary_search_bracket_invariant ⟨0, 100, 50⟩ h [true] false⟩

/-- A tit-for-tat responder that has never been fed back behaves exactly
like the utilitarian responder and keeps its state. -/
lemma tft_respond_none (offer : ℚ) (cfg : GameConfig) (b : Bool) :
    TitForTatResponder.respond ⟨none⟩ offer cfg b =
      (UtilitarianResponder.respond offer cfg b, ⟨none⟩) := rfl

/-- One round of engine play never touches the responder-strategy state of
player 1 through any feedback hook: with a never-fed tit-for-tat responder
the state stays `none` and the round is indistinguishable from the same
round with a utilitarian responder. -/
lemma play_round_tft_utilitarian_step {σ1 σ2 ρ2 : Type} (P1 : ProposerPart σ1)
    (S2 : PlayerStrategies σ2 ρ2)
    (g : GameState σ1 TitForTatResponderState σ2 ρ2) (o : Oracle)
    (h : g.resp1 = ⟨none⟩) :
    (play_round (withResponder P1 titForTatRule) S2 g o).resp1 = ⟨none⟩ ∧
    map_resp1 (fun _ => ()) (play_round (withResponder P1 titForTatRule) S2 g o) =
      play_round (withResponder P1 utilitarianRule) S2 (map_resp1 (fun _ => ()) g) o := by
  obtain ⟨cfg, p, u1, u2, pr1, rs1, pr2, rs2, b, hist⟩ := g
  simp only at h
  subst h
  cases b <;>
    cases hobs2 : S2.observe_offer_from_opponent <;>
      cases hobs1 : P1.observe_offer_from_opponent <;>
        simp [play_round, round_offer, round_accepted, round_mid, propose_phase,
          observe_phase, respond_phase, settle, feedback_phase, maybe_switch,
          withResponder, titForTatRule, utilitarianRule, TitForTatResponder.respond,
          UtilitarianResponder.respond, map_resp1, hobs1, hobs2]

/-- C10: under engine-driven play the engine never invokes any responder
`receive_feedback` (the embedded `play_round` has no such call, mirroring
`core.py`), so a tit-for-tat responder used by player 1 keeps
`last_offer = none` for the whole game, and the run is identical (same
utilities, history, probability, roles and proposer states) to the run of
the same game with a utilitarian responder, for every proposer strategy,
opponent and oracle sequence. -/
theorem tft_responder_engine_equiv {σ1 σ2 ρ2 : Type} (P1 : ProposerPart σ1)
    (S2 : PlayerStrategies σ2 ρ2) (os : List Oracle)
    (g : GameState σ1 TitForTatResponderState σ2 ρ2) (h : g.resp1 = ⟨none⟩) :
    (Game.run (withResponder P1 titForTatRule) S2 g os).resp1 = ⟨none⟩ ∧
    map_resp1 (fun _ => ()) (Game.run (withResponder P1 titForTatRule) S2 g os) =
      Game.run (withResponder P1 utilitarianRule) S2 (map_resp1 (fun _ => ()) g) os := by
  induction os generalizing g with
  | nil => exact ⟨h, by simp [Game.run]⟩
  | cons o os ih =>
      have hstep := play_round_tft_utilitarian_step P1 S2 g o h
      have hrec := ih (play_round (withResponder P1 titForTatRule) S2 g o) hstep.1
      constructor
      · simpa [Game.run] using hrec.1
      · have h2 : Game.run (withResponder P1 utilitarianRule) S2
            (map_resp1 (fun _ => ()) g) (o :: os) =
            Game.run (withResponder P1 utilitarianRule) S2
              (play_round (withResponder P1 utilitarianRule) S2
                (map_resp1 (fun _ => ()) g) o) os := by
          simp [Game.run]
        rw [h2, ← hstep.2]
        simpa [Game.run] using hrec.2

theorem tft_responder_engine_equiv_witness :
    tftEquivStart.resp1 = TitForTatResponderState.mk none ∧
    (Game.run (withResponder concedingPart titForTatRule) concedingUtilitarian
        tftEquivStart [⟨0, 0, (1:ℚ)/2⟩]).resp1 = TitForTatResponderState.mk none ∧
    map_resp1 (fun _ => ()) (Game.run (withResponder concedingPart titForTatRule)
        concedingUtilitarian tftEquivStart [⟨0, 0, (1:ℚ)/2⟩]) =
      Game.run (withResponder concedingPart utilitarianRule) concedingUtilitarian
        (map_resp1 (fun _ => ()) tftEquivStart) [⟨0, 0, (1:ℚ)/2⟩] := by
  have h : tftEquivStart.resp1 = TitForTatResponderState.mk none := rfl
  have heq := tft_responder_engine_equiv concedingPart concedingUtilitarian
    [⟨0, 0, (1:ℚ)/2⟩] tftEquivStart h
  exact ⟨h, heq.1, heq.2⟩

end TwoPartySim
